import Mathlib

/-!
Shallow embedding of the netcode client state machine from
`lightyear_netcode/src/client.rs`, together with theorems settling the
specification claims about it.

Modelling conventions:
* `f64` times are modelled as rationals (`ℚ`); the two fields that the source
  initialises to `f64::NEG_INFINITY` (`last_send_time`, `last_receive_time`)
  are modelled by `FTime`, a rational extended with a bottom element, so the
  comparisons in `send_packets` / `update_state` behave exactly as IEEE
  comparisons against negative infinity do.
* Byte buffers are `List Nat`; AEAD keys, nonces and socket addresses are
  opaque `Nat` values — no claim depends on their internal structure.
* The `on_state_change` callback only observes transitions and mutates the
  caller-supplied context; it touches no field of the client record, so it is
  omitted from the model.
-/

namespace Netcode

/-- The client state machine states, in the declaration order of the source
(`error states < Disconnected < pending states < Connected`). -/
inductive ClientState
  | ConnectTokenExpired
  | ConnectionTimedOut
  | ConnectionRequestTimedOut
  | ChallengeResponseTimedOut
  | ConnectionDenied
  | Disconnected
  | SendingConnectionRequest
  | SendingChallengeResponse
  | Connected
  deriving DecidableEq, Repr

/-- The six wire packet kinds (Request carries the token fields it embeds;
contents that no claim inspects are opaque naturals / byte lists). -/
inductive Packet
  | Request (protocol_id : Nat) (expire_timestamp : Nat) (nonce : Nat)
      (private_data : List Nat)
  | Denied (reason : Nat)
  | Challenge (sequence : Nat) (token : List Nat)
  | Response (sequence : Nat) (token : List Nat)
  | KeepAlive (client_id : Nat)
  | Payload (buf : List Nat)
  | Disconnect
  deriving DecidableEq, Repr

/-- Modelled from the spec: `Packet::write` (packet codec, not under `src/`)
serialises and seals a packet; the sealed datagram carries the packet kind and
the 64-bit sequence number in clear (§4.1). We record the packet together with
the sequence number that was written; sealing a well-formed client packet does
not fail (§4.1 lists failures only for `read`). -/
structure SealedPacket where
  packet : Packet
  sequence : Nat
  deriving DecidableEq, Repr

/-- Modelled from the spec: largest payload a Payload packet may carry
(constant defined outside `src/`; its exact value is immaterial to the
claims). -/
def MAX_PACKET_SIZE : Nat := 1200

/-- Modelled from the spec: exact token blob length (constant defined outside
`src/`; its exact value is immaterial to the claims). -/
def CONNECT_TOKEN_SIZE : Nat := 2048

/-- Modelled from the spec: replay window size, default 256. -/
def REPLAY_WINDOW_SIZE : Nat := 256

/-- Modelled from the spec: size of the opaque challenge-token byte array. -/
def CHALLENGE_TOKEN_SIZE : Nat := 300

/-- Modelled from the spec: the replay window (§4.2), a fixed-size bit set
indexed by `sequence mod W` plus the highest accepted sequence.
`ReplayProtection::new()` (not under `src/`) yields the fresh window. -/
structure ReplayProtection where
  most_recent_sequence : Nat
  received : List Bool
  deriving DecidableEq, Repr

/-- Modelled from the spec: a freshly initialised replay window — nothing
accepted yet, all window bits clear. -/
def ReplayProtection.new : ReplayProtection :=
  { most_recent_sequence := 0, received := List.replicate REPLAY_WINDOW_SIZE false }

/-- The parsed connect token, restricted to the fields `client.rs` reads. -/
structure ConnectToken where
  protocol_id : Nat
  create_timestamp : Nat
  expire_timestamp : Nat
  nonce : Nat
  private_data : List Nat
  timeout_seconds : Int
  server_addresses : List Nat
  client_to_server_key : Nat
  server_to_client_key : Nat
  deriving DecidableEq, Repr

/-- Client configuration (`ClientConfig`): the two fields that influence the
modelled behaviour. The state-change callback only mutates user context. -/
structure ClientConfig where
  num_disconnect_packets : Nat
  packet_send_rate : ℚ
  deriving DecidableEq, Repr

/-- An `f64` time value that may be negative infinity, as used for
`last_send_time` / `last_receive_time` (initialised to `f64::NEG_INFINITY`). -/
inductive FTime
  | negInf
  | fin (q : ℚ)
  deriving DecidableEq, Repr

/-- `t + d` for an extended time and a rational delta. -/
def FTime.addQ : FTime → ℚ → FTime
  | .negInf, _ => .negInf
  | .fin t, d => .fin (t + d)

/-- `t ≥ q` for an extended time against a finite time (IEEE: `-∞ ≥ q` is
false). -/
def FTime.geQ : FTime → ℚ → Bool
  | .negInf, _ => false
  | .fin t, q => decide (q ≤ t)

/-- `t < q` for an extended time against a finite time (IEEE: `-∞ < q` is
true). -/
def FTime.ltQ : FTime → ℚ → Bool
  | .negInf, _ => true
  | .fin t, q => decide (t < q)

/-- The client record (`struct Client` in `client.rs`); the scratch `writer`
buffer is pure serialization plumbing and is not modelled. -/
structure Client where
  id : Nat
  state : ClientState
  time : ℚ
  start_time : ℚ
  last_send_time : FTime
  last_receive_time : FTime
  server_addr_idx : Nat
  sequence : Nat
  challenge_token_sequence : Nat
  challenge_token_data : List Nat
  token : ConnectToken
  replay_protection : ReplayProtection
  should_disconnect : Bool
  should_disconnect_state : ClientState
  send_queue : List SealedPacket
  cfg : ClientConfig
  deriving DecidableEq, Repr

/-- The error kinds `client.rs` can surface (`Error::SizeMismatch`,
`Error::InvalidToken`); the wrapped parse error of `InvalidToken` is opaque. -/
inductive Error
  | SizeMismatch (expected : Nat) (got : Nat)
  | InvalidToken
  deriving DecidableEq, Repr

/-- `Client::set_state`: invokes the observer callback (not modelled; it only
mutates the user context) and stores the new state. -/
def set_state (c : Client) (s : ClientState) : Client :=
  { c with state := s }

/-- `Client::reset_connection`. -/
def reset_connection (c : Client) : Client :=
  { c with
      start_time := c.time
      last_send_time := .fin (c.time - 1)
      last_receive_time := .fin c.time
      should_disconnect := false
      should_disconnect_state := .Disconnected
      challenge_token_sequence := 0
      replay_protection := ReplayProtection.new }

/-- `Client::reset`: zero `sequence`, `start_time`, `server_addr_idx`, set the
new state, then `reset_connection` (which overwrites `start_time` again). -/
def reset (c : Client) (new_state : ClientState) : Client :=
  reset_connection (set_state
    { c with sequence := 0, start_time := 0, server_addr_idx := 0 } new_state)

/-- `Client::connect`: `reset_connection` then enter
`SendingConnectionRequest`. -/
def connect (c : Client) : Client :=
  set_state (reset_connection c) .SendingConnectionRequest

/-- `Client::connect_to_next_server`: `Err(())` when no further address
remains, otherwise advance the cursor and `connect`. -/
def connect_to_next_server (c : Client) : Option Client :=
  if c.server_addr_idx + 1 ≥ c.token.server_addresses.length then none
  else some (connect { c with server_addr_idx := c.server_addr_idx + 1 })

/-- `Client::send_packet`: seal at the current `sequence`, push to the link
sender, stamp `last_send_time`, increment `sequence`. -/
def send_packet (c : Client) (p : Packet) (sender : List SealedPacket) :
    Client × List SealedPacket :=
  ({ c with last_send_time := .fin c.time, sequence := c.sequence + 1 },
   sender ++ [⟨p, c.sequence⟩])

/-- `Client::send_netcode_packet`: seal at the current `sequence`, push to the
internal `send_queue`, stamp `last_send_time`, increment `sequence`. -/
def send_netcode_packet (c : Client) (p : Packet) : Client :=
  { c with
      send_queue := c.send_queue ++ [⟨p, c.sequence⟩]
      last_send_time := .fin c.time
      sequence := c.sequence + 1 }

/-- `Client::send_packets`: the periodic send. Gate
`last_send_time + packet_send_rate >= time` suppresses the send; otherwise one
packet determined by the state is sealed into the send queue. -/
def send_packets (c : Client) : Client :=
  if (c.last_send_time.addQ c.cfg.packet_send_rate).geQ c.time then c
  else
    match c.state with
    | .SendingConnectionRequest =>
        send_netcode_packet c
          (.Request c.token.protocol_id c.token.expire_timestamp c.token.nonce
            c.token.private_data)
    | .SendingChallengeResponse =>
        send_netcode_packet c
          (.Response c.challenge_token_sequence c.challenge_token_data)
    | .Connected => send_netcode_packet c (.KeepAlive 0)
    | _ => c

/-- `Client::process_packet`: route one decoded packet through the
(state, kind) transition table. Returns the updated client and, for a Payload
packet in `Connected`, the payload buffer to re-inject. The default arm
returns early and does not stamp `last_receive_time`. -/
def process_packet (c : Client) (p : Packet) : Client × Option (List Nat) :=
  match p, c.state with
  | .Denied _, .SendingConnectionRequest
  | .Denied _, .SendingChallengeResponse =>
      ({ c with
          should_disconnect := true
          should_disconnect_state := .ConnectionDenied
          last_receive_time := .fin c.time }, none)
  | .Challenge seq tok, .SendingConnectionRequest =>
      ({ c with
          challenge_token_sequence := seq
          challenge_token_data := tok
          state := .SendingChallengeResponse
          last_receive_time := .fin c.time }, none)
  | .KeepAlive _, .Connected =>
      ({ c with last_receive_time := .fin c.time }, none)
  | .KeepAlive cid, .SendingChallengeResponse =>
      ({ c with
          state := .Connected
          id := cid
          last_receive_time := .fin c.time }, none)
  | .Payload buf, .Connected =>
      ({ c with last_receive_time := .fin c.time }, some buf)
  | .Disconnect, .Connected =>
      ({ c with
          should_disconnect := true
          should_disconnect_state := .Disconnected
          last_receive_time := .fin c.time }, none)
  | _, _ => (c, none)

/-- `is_token_expired` inside `Client::update_state`. -/
def is_token_expired (c : Client) : Bool :=
  decide (c.time - c.start_time ≥
    (c.token.expire_timestamp : ℚ) - (c.token.create_timestamp : ℚ))

/-- `is_connection_timed_out` inside `Client::update_state`. -/
def is_connection_timed_out (c : Client) : Bool :=
  decide (0 < c.token.timeout_seconds) &&
    (c.last_receive_time.addQ (c.token.timeout_seconds : ℚ)).ltQ c.time

/-- `Client::update_state`: the time-driven transitions, with the match arms
in source order: token expiry for pending states; deferred disconnect (from
any state) with failover; connection-request / challenge-response timeout with
failover; connected timeout without failover; otherwise unchanged. -/
def update_state (c : Client) : Client :=
  if (c.state = .SendingConnectionRequest ∨ c.state = .SendingChallengeResponse)
      ∧ is_token_expired c = true then
    reset c .ConnectTokenExpired
  else if c.should_disconnect = true then
    match connect_to_next_server c with
    | some c' => c'
    | none => reset c c.should_disconnect_state
  else if c.state = .SendingConnectionRequest ∧ is_connection_timed_out c = true then
    match connect_to_next_server c with
    | some c' => c'
    | none => reset c .ConnectionRequestTimedOut
  else if c.state = .SendingChallengeResponse ∧ is_connection_timed_out c = true then
    match connect_to_next_server c with
    | some c' => c'
    | none => reset c .ChallengeResponseTimedOut
  else if c.state = .Connected ∧ is_connection_timed_out c = true then
    reset c .ConnectionTimedOut
  else c

/-- A raw datagram from the link receiver. -/
abbrev RecvPayload := List Nat

/-- The type of the packet decoder `Packet::read` (packet codec, not under
`src/`): parse, replay-check, decrypt and mask-check a raw datagram, threading
the replay window; all of its failures are swallowed by `recv_packet`, so they
are collapsed into `none`. The embedding is parameterised over it. -/
abbrev ReadFn := ReplayProtection → RecvPayload → Option (Packet × ReplayProtection)

/-- `Client::recv_packet`: drop datagrams of length ≤ 1, decode the rest
(decode failures are logged and swallowed), process the decoded packet. -/
def recv_packet (read : ReadFn) (c : Client) (buf : RecvPayload) :
    Client × Option RecvPayload :=
  if buf.length ≤ 1 then (c, none)
  else
    match read c.replay_protection buf with
    | none => (c, none)
    | some (p, rp) => process_packet { c with replay_protection := rp } p

/-- `Client::recv_packets`: process exactly the snapshot of datagrams present
in the receiver at tick entry, collecting the payload buffers that are
re-injected into the receiver via `push_raw`. -/
def recv_loop (read : ReadFn) (c : Client) : List RecvPayload → Client × List RecvPayload
  | [] => (c, [])
  | buf :: rest =>
      let step := recv_packet read c buf
      let restResult := recv_loop read step.1 rest
      (restResult.1, step.2.toList ++ restResult.2)

/-- `Client::try_update`: advance time, drain the receiver snapshot, run the
periodic send, then run the time-driven transitions. Returns the final client
and the payloads re-injected into the receiver. -/
def try_update (read : ReadFn) (c : Client) (delta : ℚ)
    (inbound : List RecvPayload) : Client × List RecvPayload :=
  let c0 := { c with time := c.time + delta }
  let received := recv_loop read c0 inbound
  let c2 := send_packets received.1
  (update_state c2, received.2)

/-- The tick as the claim describes it (refinement comparison only): inbound
first, then the time-driven transitions, and the periodic send only after the
transitions cannot fire. This definition follows the claim's words, not the
source, and exists to be compared with `try_update`. -/
def try_update_claimOrder (read : ReadFn) (c : Client) (delta : ℚ)
    (inbound : List RecvPayload) : Client × List RecvPayload :=
  let c0 := { c with time := c.time + delta }
  let received := recv_loop read c0 inbound
  let c2 := update_state received.1
  (send_packets c2, received.2)

/-- `Client::send`: no-op unless `Connected`; oversized payloads fail with
`SizeMismatch`; otherwise seal the buffer as a Payload packet and push it to
the link sender. -/
def send (c : Client) (buf : List Nat) (sender : List SealedPacket) :
    Except Error (Client × List SealedPacket) :=
  if c.state ≠ .Connected then .ok (c, sender)
  else if buf.length > MAX_PACKET_SIZE then
    .error (.SizeMismatch MAX_PACKET_SIZE buf.length)
  else .ok (send_packet c (.Payload buf) sender)

/-- The `for _ in 0..num_disconnect_packets` loop body of
`Client::disconnect`. -/
def sendDisconnects : Nat → Client → Client
  | 0, c => c
  | n + 1, c => sendDisconnects n (send_netcode_packet c .Disconnect)

/-- `Client::disconnect`: seal `num_disconnect_packets` Disconnect packets
into the send queue, then `reset` into `Disconnected`. -/
def disconnect (c : Client) : Client :=
  reset (sendDisconnects c.cfg.num_disconnect_packets c) .Disconnected

/-- The initial client record built by `Client::from_token` on success. -/
def initial_client (token : ConnectToken) (cfg : ClientConfig) : Client :=
  { id := 0
    state := .Disconnected
    time := 0
    start_time := 0
    last_send_time := .negInf
    last_receive_time := .negInf
    server_addr_idx := 0
    sequence := 0
    challenge_token_sequence := 0
    challenge_token_data := List.replicate CHALLENGE_TOKEN_SIZE 0
    token := token
    replay_protection := ReplayProtection.new
    should_disconnect := false
    should_disconnect_state := .Disconnected
    send_queue := []
    cfg := cfg }

/-- `Client::from_token` (the shared body of `Client::new` and
`Client::with_config`), parameterised over the token codec
`ConnectToken::read_from` (not under `src/`): reject a blob of the wrong
length with `SizeMismatch`, reject an unparsable blob with `InvalidToken`,
otherwise build the initial client record. -/
def from_token (read_from : List Nat → Option ConnectToken)
    (token_bytes : List Nat) (cfg : ClientConfig) : Except Error Client :=
  if token_bytes.length ≠ CONNECT_TOKEN_SIZE then
    .error (.SizeMismatch CONNECT_TOKEN_SIZE token_bytes.length)
  else
    match read_from token_bytes with
    | none => .error .InvalidToken
    | some token => .ok (initial_client token cfg)

/-! ## Concrete sample inputs used by witnesses and counterexamples -/

/-- A sample parsed connect token: two server addresses, a 2-second idle
timeout, a 100-second handshake budget. -/
def sampleToken : ConnectToken :=
  { protocol_id := 7
    create_timestamp := 0
    expire_timestamp := 100
    nonce := 1
    private_data := [1, 2]
    timeout_seconds := 2
    server_addresses := [10, 11]
    client_to_server_key := 3
    server_to_client_key := 4 }

/-- A sample configuration with the source defaults. -/
def sampleCfg : ClientConfig :=
  { num_disconnect_packets := 10, packet_send_rate := 1 / 10 }

/-- The sample freshly constructed client. -/
def sampleClient : Client := initial_client sampleToken sampleCfg

/-- A decoder that rejects every datagram (ticks driven with an empty receiver
do not consult it). -/
def readNone : ReadFn := fun _ _ => none

/-- A token codec that parses any blob to `sampleToken`. -/
def readSample : List Nat → Option ConnectToken := fun _ => some sampleToken

/-- A token blob of the declared size. -/
def sampleTokenBytes : List Nat := List.replicate CONNECT_TOKEN_SIZE 0

/-- A client pending against the first of two addresses whose connection
request has timed out (clock at 5, last receive at 0, 2-second timeout), with
five packets already sealed. -/
def timedOutClient : Client :=
  { sampleClient with
      state := .SendingConnectionRequest
      time := 5
      last_receive_time := .fin 0
      sequence := 5 }

/-- A Connected client that has just processed a server Disconnect packet:
the deferred-disconnect flag is set with deferred state `Disconnected`. -/
def disconnectFlaggedClient : Client :=
  { sampleClient with
      state := .Connected
      time := 1
      should_disconnect := true
      should_disconnect_state := .Disconnected
      last_receive_time := .fin 1 }

/-! ## Helper lemmas shared by the claim proofs -/

/-- `reset` written out as a single record update. -/
lemma reset_eq (c : Client) (s : ClientState) :
    reset c s =
      { c with
          sequence := 0
          server_addr_idx := 0
          state := s
          start_time := c.time
          last_send_time := .fin (c.time - 1)
          last_receive_time := .fin c.time
          should_disconnect := false
          should_disconnect_state := .Disconnected
          challenge_token_sequence := 0
          replay_protection := ReplayProtection.new } := rfl

/-- `connect` written out as a single record update. -/
lemma connect_eq (c : Client) :
    connect c =
      { c with
          state := .SendingConnectionRequest
          start_time := c.time
          last_send_time := .fin (c.time - 1)
          last_receive_time := .fin c.time
          should_disconnect := false
          should_disconnect_state := .Disconnected
          challenge_token_sequence := 0
          replay_protection := ReplayProtection.new } := rfl

/-- `send` is a pure no-op outside `Connected`. -/
lemma send_not_connected (c : Client) (buf : List Nat)
    (sender : List SealedPacket) (h : c.state ≠ .Connected) :
    send c buf sender = .ok (c, sender) := by
  unfold send
  rw [if_pos h]

/-- A successful `connect_to_next_server` is exactly a `connect` at the
incremented address cursor, and requires a further address to exist. -/
lemma connect_to_next_server_some (c c' : Client)
    (h : connect_to_next_server c = some c') :
    c' = connect { c with server_addr_idx := c.server_addr_idx + 1 } ∧
      c.server_addr_idx + 1 < c.token.server_addresses.length := by
  unfold connect_to_next_server at h
  split at h
  · exact absurd h (by simp)
  · next hlen => exact ⟨(Option.some.injEq _ _ ▸ h).symm, by omega⟩

/-- `connect_to_next_server` succeeds iff a further address remains. -/
lemma connect_to_next_server_isSome (c : Client) :
    (connect_to_next_server c).isSome =
      decide (c.server_addr_idx + 1 < c.token.server_addresses.length) := by
  unfold connect_to_next_server
  split
  · next h => simp; omega
  · next h => simp; omega

/-- No branch of the time-driven transitions touches the send queue. -/
lemma update_state_send_queue (c : Client) :
    (update_state c).send_queue = c.send_queue := by
  unfold update_state
  split
  · rw [reset_eq]
  · split
    · split
      · next c' h =>
        rw [(connect_to_next_server_some c c' h).1, connect_eq]
      · rw [reset_eq]
    · split
      · split
        · next c' h =>
          rw [(connect_to_next_server_some c c' h).1, connect_eq]
        · rw [reset_eq]
      · split
        · split
          · next c' h =>
            rw [(connect_to_next_server_some c c' h).1, connect_eq]
          · rw [reset_eq]
        · split
          · rw [reset_eq]
          · rfl

/-- No branch of the time-driven transitions touches the client id. -/
lemma update_state_id (c : Client) : (update_state c).id = c.id := by
  unfold update_state
  split
  · rw [reset_eq]
  · split
    · split
      · next c' h =>
        rw [(connect_to_next_server_some c c' h).1, connect_eq]
      · rw [reset_eq]
    · split
      · split
        · next c' h =>
          rw [(connect_to_next_server_some c c' h).1, connect_eq]
        · rw [reset_eq]
      · split
        · split
          · next c' h =>
            rw [(connect_to_next_server_some c c' h).1, connect_eq]
          · rw [reset_eq]
        · split
          · rw [reset_eq]
          · rfl

/-! ## C2 — what `reset` leaves in the record -/

/-- C2 (amended): `Client::reset` zeroes `sequence` and `server_addr_idx` and
re-initializes the replay window, but its zeroing of `start_time` is
immediately overwritten by `reset_connection`, which stamps `start_time` with
the current `time`. -/
theorem reset_zeroes_counters_but_stamps_start_time (c : Client) (s : ClientState) :
    (reset c s).sequence = 0 ∧ (reset c s).server_addr_idx = 0 ∧
      (reset c s).replay_protection = ReplayProtection.new ∧
      (reset c s).start_time = c.time ∧ (reset c s).state = s := by
  rw [reset_eq]
  exact ⟨rfl, rfl, rfl, rfl, rfl⟩

/-- C2 (counterexample): resetting a client whose clock has advanced to 5
leaves `start_time = 5`, not `0` — the claim that any reset zeroes
`start_time` fails. -/
theorem reset_start_time_not_zero :
    (reset { sampleClient with time := 5, state := .Connected, sequence := 3 }
        .Disconnected).start_time = 5 ∧
      ¬ (reset { sampleClient with time := 5, state := .Connected, sequence := 3 }
        .Disconnected).start_time = 0 := by
  constructor
  · rfl
  · decide

/-! ## C5 — the `send` contract -/

/-- C5: `send` is a pure no-op (Ok, nothing pushed, no field changed) outside
`Connected`; in `Connected` it fails with `SizeMismatch` exactly when the
buffer exceeds `MAX_PACKET_SIZE`, and otherwise seals the buffer as a Payload
packet at the current sequence and pushes it to the sender. -/
theorem send_contract (c : Client) (buf : List Nat) (sender : List SealedPacket) :
    (c.state ≠ .Connected → send c buf sender = .ok (c, sender)) ∧
      (c.state = .Connected → buf.length > MAX_PACKET_SIZE →
        send c buf sender = .error (.SizeMismatch MAX_PACKET_SIZE buf.length)) ∧
      (c.state = .Connected → buf.length ≤ MAX_PACKET_SIZE →
        send c buf sender =
          .ok ({ c with last_send_time := .fin c.time, sequence := c.sequence + 1 },
            sender ++ [⟨.Payload buf, c.sequence⟩])) := by
  refine ⟨send_not_connected c buf sender, ?_, ?_⟩
  · intro hs hlen
    unfold send
    rw [if_neg (by simp [hs]), if_pos hlen]
  · intro hs hlen
    unfold send
    rw [if_neg (by simp [hs]), if_neg (by omega)]
    rfl

/-- C5 (witness): a Connected client at time 1 sends a three-byte payload,
sealing it at sequence 0; a Disconnected client's `send` is a no-op. -/
theorem send_contract_witness :
    ({ sampleClient with state := .Connected, time := 1 } : Client).state = .Connected ∧
      [5, 6, 7].length ≤ MAX_PACKET_SIZE ∧
      send { sampleClient with state := .Connected, time := 1 } [5, 6, 7] [] =
        .ok ({ sampleClient with
                state := .Connected
                time := 1
                last_send_time := .fin 1
                sequence := 1 },
          [⟨.Payload [5, 6, 7], 0⟩]) ∧
      sampleClient.state ≠ .Connected ∧
      send sampleClient [5, 6, 7] [] = .ok (sampleClient, []) :=
  ⟨rfl, by decide,
    (send_contract { sampleClient with state := .Connected, time := 1 } [5, 6, 7] []).2.2
      rfl (by decide),
    by decide,
    (send_contract sampleClient [5, 6, 7] []).1 (by decide)⟩

/-! ## C6 — construction -/

/-- C6: `Client::from_token` (the body of `new` / `with_config`) fails with
`SizeMismatch` exactly when the blob length differs from
`CONNECT_TOKEN_SIZE`, fails with `InvalidToken` when the right-sized blob does
not parse, and on success yields the initial client, whose state is
`Disconnected`. -/
theorem from_token_contract (read_from : List Nat → Option ConnectToken)
    (token_bytes : List Nat) (cfg : ClientConfig) :
    (token_bytes.length ≠ CONNECT_TOKEN_SIZE →
      from_token read_from token_bytes cfg =
        .error (.SizeMismatch CONNECT_TOKEN_SIZE token_bytes.length)) ∧
      (token_bytes.length = CONNECT_TOKEN_SIZE → read_from token_bytes = none →
        from_token read_from token_bytes cfg = .error .InvalidToken) ∧
      (∀ t, token_bytes.length = CONNECT_TOKEN_SIZE → read_from token_bytes = some t →
        from_token read_from token_bytes cfg = .ok (initial_client t cfg) ∧
          (initial_client t cfg).state = .Disconnected) := by
  refine ⟨?_, ?_, ?_⟩
  · intro h
    unfold from_token
    rw [if_pos h]
  · intro hlen hparse
    unfold from_token
    rw [if_neg (by simp [hlen]), hparse]
  · intro t hlen hparse
    unfold from_token
    rw [if_neg (by simp [hlen]), hparse]
    exact ⟨rfl, rfl⟩

/-- C6 (witness): a right-sized blob under a codec that parses it yields an
`Ok` client in state `Disconnected`; a two-byte blob is rejected with
`SizeMismatch`. -/
theorem from_token_contract_witness :
    sampleTokenBytes.length = CONNECT_TOKEN_SIZE ∧
      readSample sampleTokenBytes = some sampleToken ∧
      from_token readSample sampleTokenBytes sampleCfg =
        .ok (initial_client sampleToken sampleCfg) ∧
      (initial_client sampleToken sampleCfg).state = .Disconnected ∧
      [9, 9].length ≠ CONNECT_TOKEN_SIZE ∧
      from_token readSample [9, 9] sampleCfg =
        .error (.SizeMismatch CONNECT_TOKEN_SIZE 2) := by
  have hlen : sampleTokenBytes.length = CONNECT_TOKEN_SIZE := by
    simp [sampleTokenBytes]
  have hok := (from_token_contract readSample sampleTokenBytes sampleCfg).2.2
    sampleToken hlen rfl
  exact ⟨hlen, rfl, hok.1, hok.2, by decide,
    (from_token_contract readSample [9, 9] sampleCfg).1 (by decide)⟩

/-! ## C7 — payloads are surfaced only while Connected -/

/-- `process_packet` surfaces a buffer exactly for a Payload packet processed
in `Connected`. -/
lemma process_packet_payload_iff (c : Client) (p : Packet) (buf : List Nat) :
    (process_packet c p).2 = some buf ↔
      p = .Payload buf ∧ c.state = .Connected := by
  cases p <;> cases hc : c.state <;>
    simp [process_packet, hc]

/-- `recv_packet` never surfaces a payload while the state is not
`Connected`. -/
lemma recv_packet_not_connected (read : ReadFn) (c : Client)
    (buf : RecvPayload) (h : c.state ≠ .Connected) :
    (recv_packet read c buf).2 = none := by
  unfold recv_packet
  split
  · rfl
  · split
    · rfl
    · next p rp _ =>
      cases hout : (process_packet { c with replay_protection := rp } p).2 with
      | none => rfl
      | some b =>
        rw [process_packet_payload_iff] at hout
        exact absurd hout.2 h

/-- C7: an inbound packet's Payload buffer is surfaced (re-injected into the
receiver) exactly when it is a Payload packet processed while the client state
is `Connected`; in every other state, decoding and routing a datagram
surfaces nothing. -/
theorem payload_surfaced_only_when_connected :
    (∀ (c : Client) (p : Packet) (buf : List Nat),
        (process_packet c p).2 = some buf ↔
          p = .Payload buf ∧ c.state = .Connected) ∧
      (∀ (read : ReadFn) (c : Client) (buf : RecvPayload),
        c.state ≠ .Connected → (recv_packet read c buf).2 = none) :=
  ⟨process_packet_payload_iff, recv_packet_not_connected⟩

/-- C7 (witness): a pending client surfaces nothing from a datagram, and a
Connected client surfaces a Payload packet's buffer. -/
theorem payload_surfaced_only_when_connected_witness :
    ({ sampleClient with state := .SendingChallengeResponse } : Client).state ≠
        .Connected ∧
      (recv_packet readNone { sampleClient with state := .SendingChallengeResponse }
        [1, 2, 3]).2 = none ∧
      (process_packet { sampleClient with state := .Connected }
        (.Payload [8, 9])).2 = some [8, 9] :=
  ⟨by decide,
    payload_surfaced_only_when_connected.2 readNone
      { sampleClient with state := .SendingChallengeResponse } [1, 2, 3] (by decide),
    (payload_surfaced_only_when_connected.1
      { sampleClient with state := .Connected } (.Payload [8, 9]) [8, 9]).mpr
      ⟨rfl, rfl⟩⟩

/-! ## C9 — graceful disconnect -/

/-- The disconnect loop appends `n` Disconnect packets sealed at consecutive
sequence numbers starting from the current one. -/
lemma sendDisconnects_send_queue (n : Nat) :
    ∀ c : Client,
      (sendDisconnects n c).send_queue =
        c.send_queue ++
          (List.range n).map (fun i => ⟨.Disconnect, c.sequence + i⟩) := by
  induction n with
  | zero => intro c; simp [sendDisconnects]
  | succ n ih =>
    intro c
    rw [show sendDisconnects (n + 1) c =
          sendDisconnects n (send_netcode_packet c .Disconnect) from rfl, ih]
    simp [send_netcode_packet, List.range_succ_eq_map, List.map_map,
      Function.comp_def, Nat.add_comm, Nat.add_assoc, Nat.add_left_comm]

/-- The disconnect loop does not change the state. -/
lemma sendDisconnects_state (n : Nat) :
    ∀ c : Client, (sendDisconnects n c).state = c.state := by
  induction n with
  | zero => intro c; rfl
  | succ n ih =>
    intro c
    rw [show sendDisconnects (n + 1) c =
          sendDisconnects n (send_netcode_packet c .Disconnect) from rfl, ih]
    rfl

/-- The disconnect loop does not change the client id. -/
lemma sendDisconnects_id (n : Nat) :
    ∀ c : Client, (sendDisconnects n c).id = c.id := by
  induction n with
  | zero => intro c; rfl
  | succ n ih =>
    intro c
    rw [show sendDisconnects (n + 1) c =
          sendDisconnects n (send_netcode_packet c .Disconnect) from rfl, ih]
    rfl

/-- C9: `disconnect` appends exactly `num_disconnect_packets` sealed
Disconnect packets (at consecutive sequence numbers starting from the current
counter) to the internal send queue, resets the client into `Disconnected`,
and any subsequent `send` is a no-op. -/
theorem disconnect_contract (c : Client) :
    (disconnect c).send_queue =
        c.send_queue ++
          (List.range c.cfg.num_disconnect_packets).map
            (fun i => ⟨.Disconnect, c.sequence + i⟩) ∧
      (disconnect c).send_queue.length =
        c.send_queue.length + c.cfg.num_disconnect_packets ∧
      (disconnect c).state = .Disconnected ∧
      ∀ (buf : List Nat) (sender : List SealedPacket),
        send (disconnect c) buf sender = .ok (disconnect c, sender) := by
  have hq : (disconnect c).send_queue =
      c.send_queue ++
        (List.range c.cfg.num_disconnect_packets).map
          (fun i => ⟨.Disconnect, c.sequence + i⟩) := by
    unfold disconnect
    rw [reset_eq]
    exact sendDisconnects_send_queue c.cfg.num_disconnect_packets c
  have hs : (disconnect c).state = .Disconnected := by
    unfold disconnect
    rw [reset_eq]
  refine ⟨hq, ?_, hs, ?_⟩
  · rw [hq]; simp
  · intro buf sender
    exact send_not_connected _ buf sender (by rw [hs]; decide)

/-! ## C10 — the client id survives every reset -/

/-- C10: the client id is written only at construction (where it is 0) and on
a KeepAlive packet received in `SendingChallengeResponse`; `reset`,
`disconnect` and the time-driven transitions all preserve it, so a client that
reached `Connected` with id `c` still reports that id after any reset. -/
theorem id_only_set_at_construction_and_keepalive :
    (∀ (read_from : List Nat → Option ConnectToken) (token_bytes : List Nat)
        (cfg : ClientConfig) (cl : Client),
        from_token read_from token_bytes cfg = .ok cl → cl.id = 0) ∧
      (∀ (c : Client) (cid : Nat),
        (process_packet { c with state := .SendingChallengeResponse }
          (.KeepAlive cid)).1.id = cid) ∧
      (∀ (c : Client) (p : Packet),
        (process_packet c p).1.id = c.id ∨
          (c.state = .SendingChallengeResponse ∧ ∃ cid, p = .KeepAlive cid)) ∧
      (∀ (c : Client) (s : ClientState), (reset c s).id = c.id) ∧
      (∀ c : Client, (disconnect c).id = c.id) ∧
      (∀ c : Client, (update_state c).id = c.id) := by
  refine ⟨?_, ?_, ?_, ?_, ?_, ?_⟩
  · intro read_from token_bytes cfg cl h
    unfold from_token at h
    split at h
    · exact absurd h (by simp)
    · split at h
      · exact absurd h (by simp)
      · rw [Except.ok.injEq] at h
        rw [← h]
        rfl
  · intro c cid
    rfl
  · intro c p
    cases p <;> cases hc : c.state <;>
      simp [process_packet, hc]
  · intro c s
    rw [reset_eq]
  · intro c
    unfold disconnect
    rw [reset_eq]
    exact sendDisconnects_id c.cfg.num_disconnect_packets c
  · exact update_state_id

/-- C10 (witness): a freshly parsed client has id 0; a client whose handshake
completed with id 42 still reports id 42 after a `disconnect` and after a
`reset` into an error state. -/
theorem id_only_set_at_construction_and_keepalive_witness :
    from_token readSample sampleTokenBytes sampleCfg =
        .ok (initial_client sampleToken sampleCfg) ∧
      (initial_client sampleToken sampleCfg).id = 0 ∧
      (process_packet { sampleClient with state := .SendingChallengeResponse }
        (.KeepAlive 42)).1.id = 42 ∧
      (reset { sampleClient with id := 42, state := .Connected }
        .ConnectionTimedOut).id = 42 ∧
      (disconnect { sampleClient with id := 42, state := .Connected }).id = 42 := by
  have hok : from_token readSample sampleTokenBytes sampleCfg =
      .ok (initial_client sampleToken sampleCfg) := by
    unfold from_token
    rw [if_neg (by simp [sampleTokenBytes])]
    rfl
  refine ⟨hok, ?_, ?_, ?_, ?_⟩
  · exact id_only_set_at_construction_and_keepalive.1 readSample sampleTokenBytes
      sampleCfg _ hok
  · exact id_only_set_at_construction_and_keepalive.2.1
      { sampleClient with state := .SendingChallengeResponse } 42
  · exact id_only_set_at_construction_and_keepalive.2.2.2.1
      { sampleClient with id := 42, state := .Connected } .ConnectionTimedOut
  · exact id_only_set_at_construction_and_keepalive.2.2.2.2.1
      { sampleClient with id := 42, state := .Connected }

/-! ## C4 — deferred disconnect attempts failover first, from any state -/

/-- C4: when `update_state` runs with `should_disconnect` set and the
token-expiry arm for pending states has not fired, the client first attempts
failover to the next server address, and only when no address remains does it
reset into `should_disconnect_state`; and a server Disconnect packet received
in `Connected` is exactly what sets `should_disconnect` (deferring to state
`Disconnected`), so the branch applies from `Connected` as well. -/
theorem update_state_should_disconnect_failover_first :
    (∀ c : Client,
        ¬ ((c.state = .SendingConnectionRequest ∨
              c.state = .SendingChallengeResponse) ∧ is_token_expired c = true) →
        c.should_disconnect = true →
        (c.server_addr_idx + 1 < c.token.server_addresses.length →
          update_state c = connect { c with server_addr_idx := c.server_addr_idx + 1 }) ∧
        (¬ c.server_addr_idx + 1 < c.token.server_addresses.length →
          update_state c = reset c c.should_disconnect_state)) ∧
      (∀ c : Client, c.state = .Connected →
        process_packet c .Disconnect =
          ({ c with
              should_disconnect := true
              should_disconnect_state := .Disconnected
              last_receive_time := .fin c.time }, none)) := by
  constructor
  · intro c hexp hsd
    have hbody : update_state c =
        match connect_to_next_server c with
        | some c' => c'
        | none => reset c c.should_disconnect_state := by
      unfold update_state
      rw [if_neg hexp, if_pos hsd]
    constructor
    · intro hidx
      rw [hbody]
      unfold connect_to_next_server
      rw [if_neg (by omega)]
    · intro hidx
      rw [hbody]
      unfold connect_to_next_server
      rw [if_pos (by omega)]
  · intro c hc
    unfold process_packet
    rw [hc]

/-- C4 (witness): a Connected client that received a server Disconnect packet
(flag set, deferred state `Disconnected`) and still has a second address in
its token fails over into `SendingConnectionRequest` instead of resetting. -/
theorem update_state_should_disconnect_failover_first_witness :
    (process_packet { sampleClient with state := .Connected, time := 1 } .Disconnect =
        (disconnectFlaggedClient, none)) ∧
      disconnectFlaggedClient.should_disconnect = true ∧
      update_state disconnectFlaggedClient =
        connect { disconnectFlaggedClient with server_addr_idx := 1 } ∧
      (update_state disconnectFlaggedClient).state = .SendingConnectionRequest :=
  ⟨update_state_should_disconnect_failover_first.2
      { sampleClient with state := .Connected, time := 1 } rfl,
    rfl,
    ((update_state_should_disconnect_failover_first.1 disconnectFlaggedClient
        (by decide) rfl).1 (by decide)),
    by rw [((update_state_should_disconnect_failover_first.1 disconnectFlaggedClient
        (by decide) rfl).1 (by decide)), connect_eq]⟩

/-! ## C1 — what failover actually does to the record -/

/-- C1 (amended): on failover (a connection-request or challenge-response
timeout, or a deferred disconnect, while a further server address remains),
the client increments `server_addr_idx`, re-enters
`SendingConnectionRequest`, re-initializes the replay window and stamps
`start_time` — but the outbound `sequence` counter is left unchanged:
`connect_to_next_server` runs `connect`, which never touches `sequence`. -/
theorem failover_keeps_sequence (c : Client)
    (hexp : ¬ ((c.state = .SendingConnectionRequest ∨
        c.state = .SendingChallengeResponse) ∧ is_token_expired c = true))
    (htrig : c.should_disconnect = true ∨
      ((c.state = .SendingConnectionRequest ∨
          c.state = .SendingChallengeResponse) ∧ is_connection_timed_out c = true))
    (hidx : c.server_addr_idx + 1 < c.token.server_addresses.length) :
    (update_state c).state = .SendingConnectionRequest ∧
      (update_state c).server_addr_idx = c.server_addr_idx + 1 ∧
      (update_state c).replay_protection = ReplayProtection.new ∧
      (update_state c).start_time = c.time ∧
      (update_state c).sequence = c.sequence := by
  have hnext : connect_to_next_server c =
      some (connect { c with server_addr_idx := c.server_addr_idx + 1 }) := by
    unfold connect_to_next_server
    rw [if_neg (by omega)]
  have hus : update_state c =
      connect { c with server_addr_idx := c.server_addr_idx + 1 } := by
    unfold update_state
    rw [if_neg hexp]
    rcases htrig with hsd | ⟨hpend | hpend, hto⟩
    · rw [if_pos hsd, hnext]
    · by_cases hsd : c.should_disconnect = true
      · rw [if_pos hsd, hnext]
      · rw [if_neg hsd, if_pos ⟨hpend, hto⟩, hnext]
    · by_cases hsd : c.should_disconnect = true
      · rw [if_pos hsd, hnext]
      · rw [if_neg hsd,
          if_neg (by rintro ⟨h1, -⟩; rw [hpend] at h1; exact absurd h1 (by decide)),
          if_pos ⟨hpend, hto⟩, hnext]
  rw [hus, connect_eq]
  exact ⟨rfl, rfl, rfl, rfl, rfl⟩

/-- `timedOutClient` has not exhausted its handshake budget. -/
lemma timedOutClient_not_expired : is_token_expired timedOutClient = false := by
  simp only [is_token_expired, timedOutClient, sampleClient, initial_client,
    sampleToken, decide_eq_false_iff_not]
  norm_num

/-- `timedOutClient` has hit the 2-second idle timeout. -/
lemma timedOutClient_timed_out : is_connection_timed_out timedOutClient = true := by
  simp only [is_connection_timed_out, timedOutClient, sampleClient, initial_client,
    sampleToken, FTime.addQ, FTime.ltQ, Bool.and_eq_true, decide_eq_true_eq]
  norm_num

/-- The tick transition of `timedOutClient` is a failover to the second
address. -/
lemma timedOutClient_update :
    update_state timedOutClient = connect { timedOutClient with server_addr_idx := 1 } := by
  unfold update_state
  rw [if_neg (by rw [timedOutClient_not_expired]; simp),
    if_neg (by rw [show timedOutClient.should_disconnect = false from rfl]; simp),
    if_pos ⟨rfl, timedOutClient_timed_out⟩]
  unfold connect_to_next_server
  rw [if_neg (by decide)]
  rfl

/-- C1 (witness): `timedOutClient` (pending against the first of two
addresses, request timed out at time 5, five packets sealed) fails over:
index 1, state `SendingConnectionRequest`, fresh replay window, and
`sequence` kept at 5. -/
theorem failover_keeps_sequence_witness :
    ¬ ((timedOutClient.state = .SendingConnectionRequest ∨
          timedOutClient.state = .SendingChallengeResponse) ∧
        is_token_expired timedOutClient = true) ∧
      is_connection_timed_out timedOutClient = true ∧
      (update_state timedOutClient).state = .SendingConnectionRequest ∧
      (update_state timedOutClient).server_addr_idx = 1 ∧
      (update_state timedOutClient).replay_protection = ReplayProtection.new ∧
      (update_state timedOutClient).sequence = 5 := by
  have h := failover_keeps_sequence timedOutClient
    (by rw [timedOutClient_not_expired]; simp)
    (Or.inr ⟨Or.inl rfl, timedOutClient_timed_out⟩) (by decide)
  exact ⟨by rw [timedOutClient_not_expired]; simp, timedOutClient_timed_out,
    h.1, h.2.1, h.2.2.1, h.2.2.2.2⟩

/-- C1 (counterexample): in the same failover scenario the claim asserts the
outbound sequence counter is reset to 0; the code keeps it at 5. -/
theorem failover_sequence_not_reset :
    (update_state timedOutClient).state = .SendingConnectionRequest ∧
      (update_state timedOutClient).server_addr_idx = 1 ∧
      ¬ (update_state timedOutClient).sequence = 0 := by
  rw [timedOutClient_update, connect_eq]
  refine ⟨rfl, rfl, ?_⟩
  decide

/-! ## C3 — order of the steps inside one tick -/

/-- C3 (amended): within one tick the order is: inbound packets present at
entry are processed first, then the periodic packet (Request / Response /
KeepAlive) is emitted, and only after that are the time-driven transitions
evaluated — the periodic send precedes `update_state`, so it is computed from
the post-receive state, before any time-driven transition can fire. -/
theorem tick_recv_then_send_then_transitions :
    (∀ (read : ReadFn) (c : Client) (delta : ℚ) (inbound : List RecvPayload),
        try_update read c delta inbound =
          (update_state
              (send_packets (recv_loop read { c with time := c.time + delta } inbound).1),
            (recv_loop read { c with time := c.time + delta } inbound).2)) ∧
      (∀ (read : ReadFn) (c : Client) (delta : ℚ) (inbound : List RecvPayload)
          (c1 : Client),
        c1 = (recv_loop read { c with time := c.time + delta } inbound).1 →
        ((c1.last_send_time.addQ c1.cfg.packet_send_rate).geQ c1.time) = false →
        c1.state = .SendingConnectionRequest →
        (try_update read c delta inbound).1.send_queue =
          c1.send_queue ++
            [⟨.Request c1.token.protocol_id c1.token.expire_timestamp c1.token.nonce
                c1.token.private_data, c1.sequence⟩]) := by
  constructor
  · intro read c delta inbound
    rfl
  · intro read c delta inbound c1 hc1 hgate hstate
    have hmain : (try_update read c delta inbound).1 = update_state (send_packets c1) := by
      rw [hc1]; rfl
    rw [hmain, update_state_send_queue]
    unfold send_packets
    rw [if_neg (by rw [hgate]; simp), hstate]
    rfl

/-- A client pending against a single-address token whose whole handshake
budget (1 second) has elapsed, before any periodic packet went out. -/
def expiredPendingClient : Client :=
  { initial_client
      { sampleToken with expire_timestamp := 1, server_addresses := [10], timeout_seconds := 0 }
      sampleCfg with
    state := .SendingConnectionRequest }

/-- C3 (witness): ticking `expiredPendingClient` by 2 seconds with an empty
receiver appends a Request packet sealed at sequence 0 to the send queue —
the periodic send ran on the post-receive state. -/
theorem tick_recv_then_send_then_transitions_witness :
    ({ expiredPendingClient with time := expiredPendingClient.time + 2 } : Client) =
        (recv_loop readNone
          { expiredPendingClient with time := expiredPendingClient.time + 2 } []).1 ∧
      ((({ expiredPendingClient with
            time := expiredPendingClient.time + 2 } : Client).last_send_time.addQ
          sampleCfg.packet_send_rate).geQ
        ({ expiredPendingClient with
            time := expiredPendingClient.time + 2 } : Client).time) = false ∧
      (try_update readNone expiredPendingClient 2 []).1.send_queue =
        [] ++ [⟨.Request 7 1 1 [1, 2], 0⟩] :=
  ⟨rfl, rfl,
    tick_recv_then_send_then_transitions.2 readNone expiredPendingClient 2 []
      { expiredPendingClient with time := expiredPendingClient.time + 2 }
      rfl rfl rfl⟩

/-- The post-receive client of the `expiredPendingClient` tick has exhausted
its handshake budget. -/
lemma expiredPendingClient_expired_after_send :
    is_token_expired
      (send_packets { expiredPendingClient with time := expiredPendingClient.time + 2 }) =
      true := by
  simp only [is_token_expired, decide_eq_true_eq, send_packets, send_netcode_packet,
    FTime.addQ, FTime.geQ, expiredPendingClient, initial_client, sampleToken, sampleCfg]
  norm_num

/-- C3 (counterexample): on `expiredPendingClient`, the code's tick both
emits a Request packet and takes the time-driven transition to
`ConnectTokenExpired`; under the claimed order (transitions before sends, the
send only when no transition fires) the same tick emits nothing, as
`try_update_claimOrder` shows. The claim that a periodic packet is emitted
only after the time-driven transitions cannot fire is false. -/
theorem tick_emits_before_transitions_can_fire :
    (try_update readNone expiredPendingClient 2 []).1.state = .ConnectTokenExpired ∧
      (try_update readNone expiredPendingClient 2 []).1.send_queue ≠ [] ∧
      (try_update_claimOrder readNone expiredPendingClient 2 []).1.send_queue = [] := by
  refine ⟨?_, ?_, ?_⟩
  · show (update_state
        (send_packets { expiredPendingClient with
          time := expiredPendingClient.time + 2 })).state = .ConnectTokenExpired
    unfold update_state
    rw [if_pos ⟨Or.inl rfl, expiredPendingClient_expired_after_send⟩, reset_eq]
  · show (update_state
        (send_packets { expiredPendingClient with
          time := expiredPendingClient.time + 2 })).send_queue ≠ []
    rw [update_state_send_queue]
    decide
  · show (send_packets (update_state { expiredPendingClient with
        time := expiredPendingClient.time + 2 })).send_queue = []
    have hexp : is_token_expired { expiredPendingClient with
        time := expiredPendingClient.time + 2 } = true := by
      simp only [is_token_expired, decide_eq_true_eq, expiredPendingClient,
        initial_client, sampleToken, sampleCfg]
      norm_num
    have hu : update_state { expiredPendingClient with
        time := expiredPendingClient.time + 2 } =
        reset { expiredPendingClient with time := expiredPendingClient.time + 2 }
          .ConnectTokenExpired := by
      unfold update_state
      rw [if_pos ⟨Or.inl rfl, hexp⟩]
    rw [hu, reset_eq]
    unfold send_packets
    rw [if_neg (by
      simp only [FTime.addQ, FTime.geQ, expiredPendingClient, initial_client,
        sampleToken, sampleCfg, decide_eq_true_eq]
      norm_num)]
    rfl

/-! ## C8 — outbound sequence numbers -/

/-- A consecutive run of netcode-packet seals with nothing in between. -/
def sealRun : Client → List Packet → Client
  | c, [] => c
  | c, p :: ps => sealRun (send_netcode_packet c p) ps

/-- The sequence numbers written by a consecutive run of seals are the
interval starting at the current counter. -/
lemma sealRun_queue_map (ps : List Packet) :
    ∀ c : Client,
      (sealRun c ps).send_queue.map SealedPacket.sequence =
        c.send_queue.map SealedPacket.sequence ++ List.range' c.sequence ps.length := by
  induction ps with
  | nil => intro c; simp [sealRun]
  | cons p ps ih =>
    intro c
    rw [show sealRun c (p :: ps) = sealRun (send_netcode_packet c p) ps from rfl, ih]
    simp [send_netcode_packet, List.range'_succ]

/-- `List.range'` is strictly increasing. -/
lemma chain_lt_range' (n : Nat) :
    ∀ s : Nat, List.Chain' (fun a b : Nat => a < b) (List.range' s n) := by
  induction n with
  | zero => intro s; simp
  | succ n ih =>
    intro s
    cases n with
    | zero => simp [List.range']
    | succ m =>
      rw [List.range'_succ, List.range'_succ]
      exact List.Chain'.cons (Nat.lt_succ_self s)
        (by rw [← List.range'_succ]; exact ih (s + 1))

/-- C8 (amended): each successful seal (`send_packet` to the link sender,
`send_netcode_packet` to the internal queue) writes the current `sequence`
counter into the packet and then increments the counter; consequently the
sequence numbers emitted by any consecutive run of seals with no intervening
reset are the interval starting at the current counter, hence strictly
increasing in emission order. (The strict increase does not survive a client
reset, which zeroes the counter — see the counterexample.) -/
theorem seals_write_then_increment_sequence :
    (∀ (c : Client) (p : Packet) (sender : List SealedPacket),
        (send_packet c p sender).2 = sender ++ [⟨p, c.sequence⟩] ∧
          (send_packet c p sender).1.sequence = c.sequence + 1) ∧
      (∀ (c : Client) (p : Packet),
        (send_netcode_packet c p).send_queue = c.send_queue ++ [⟨p, c.sequence⟩] ∧
          (send_netcode_packet c p).sequence = c.sequence + 1) ∧
      (∀ (c : Client) (ps : List Packet),
        (sealRun c ps).send_queue.map SealedPacket.sequence =
          c.send_queue.map SealedPacket.sequence ++ List.range' c.sequence ps.length) ∧
      (∀ (c : Client) (ps : List Packet), c.send_queue = [] →
        List.Chain' (fun a b : Nat => a < b)
          ((sealRun c ps).send_queue.map SealedPacket.sequence)) := by
  refine ⟨fun c p sender => ⟨rfl, rfl⟩, fun c p => ⟨rfl, rfl⟩,
    fun c ps => sealRun_queue_map ps c, ?_⟩
  intro c ps hq
  rw [sealRun_queue_map ps c, hq]
  simp only [List.map_nil, List.nil_append]
  exact chain_lt_range' ps.length c.sequence

/-- C8 (witness): sealing three netcode packets in a row from a fresh client
emits the strictly increasing sequence numbers 0, 1, 2. -/
theorem seals_write_then_increment_sequence_witness :
    sampleClient.send_queue = [] ∧
      (sealRun sampleClient [.Disconnect, .KeepAlive 0, .Disconnect]).send_queue.map
          SealedPacket.sequence = [0, 1, 2] ∧
      List.Chain' (fun a b : Nat => a < b)
        ((sealRun sampleClient [.Disconnect, .KeepAlive 0, .Disconnect]).send_queue.map
          SealedPacket.sequence) :=
  ⟨rfl, rfl,
    seals_write_then_increment_sequence.2.2.2 sampleClient
      [.Disconnect, .KeepAlive 0, .Disconnect] rfl⟩

/-- A Connected client that has already sealed five packets, configured to
send a single redundant Disconnect packet. -/
def connectedSequencedClient : Client :=
  { initial_client sampleToken
      { num_disconnect_packets := 1, packet_send_rate := 1 / 10 } with
    state := .Connected
    time := 1
    sequence := 5 }

/-- C8 (counterexample): one client performs only successful outbound seals —
`disconnect()` seals a Disconnect packet at sequence 5 and resets the counter,
then after `connect()` the next periodic send seals a Request packet at
sequence 0 — so the emitted sequence numbers `[5, 0]`, in emission order, are
not strictly increasing. The claim over every sequence of seals by one client
is false; it only holds between two resets. -/
theorem sequence_not_increasing_across_reset :
    (send_packets (connect (disconnect connectedSequencedClient))).send_queue.map
        SealedPacket.sequence = [5, 0] ∧
      ¬ List.Chain' (fun a b : Nat => a < b)
        ((send_packets (connect (disconnect connectedSequencedClient))).send_queue.map
          SealedPacket.sequence) := by
  have hq : (send_packets (connect (disconnect connectedSequencedClient))).send_queue.map
      SealedPacket.sequence = [5, 0] := by
    unfold send_packets
    rw [if_neg (by
      simp only [connect_eq, disconnect, reset_eq, sendDisconnects, send_netcode_packet,
        FTime.addQ, FTime.geQ, connectedSequencedClient, initial_client, sampleToken,
        decide_eq_true_eq]
      norm_num)]
    rfl
  refine ⟨hq, ?_⟩
  rw [hq]
  intro h
  rw [List.chain'_cons] at h
  exact absurd h.1 (by omega)

end Netcode
